import Mathlib

/-!
Verification of the `errorhelpers` Python library (src/errorhelpers/__init__.py)
against its natural-language specification.

The library exports one exception class, `UnexpectedError(BaseException)`, and
one decorator factory, `expect_errors(*errors, on_unexpected_error=...)`.  The
decorator wraps a callable in

    try:
        return func(*args, **kwargs)
    except errors:
        raise
    except Exception as err:
        return on_unexpected_error(err, args, kwargs)

We shallowly embed the relevant Python semantics: a finite universe of
exception classes with their real inheritance chains (method resolution
order), exception objects carrying class, message and an identity token,
callables as Lean functions returning an `Outcome`, and the try/except
dispatch of `wrapped` as a case analysis following the textual order of the
except clauses.
-/

set_option autoImplicit false

namespace Errorhelpers

/-- The exception classes used in this development, a finite slice of the
Python hierarchy.  `UnexpectedError` is the class declared in the source at
line 32: `class UnexpectedError(BaseException)` — it derives from
`BaseException` directly, not from `Exception`. -/
inductive ExcClass where
  | BaseException
  | KeyboardInterrupt
  | Exception
  | ArithmeticError
  | ZeroDivisionError
  | TypeError
  | ValueError
  | CustomError
  | UnexpectedError
deriving DecidableEq, Repr

/-- The linearized ancestor chain (Python method resolution order) of each
class, the class itself included, mirroring the real Python hierarchy:
`ZeroDivisionError < ArithmeticError < Exception < BaseException`,
`KeyboardInterrupt < BaseException`, and the declaration in the source
`UnexpectedError < BaseException` (line 32). -/
def mro : ExcClass → List ExcClass
  | ExcClass.BaseException => [ExcClass.BaseException]
  | ExcClass.KeyboardInterrupt => [ExcClass.KeyboardInterrupt, ExcClass.BaseException]
  | ExcClass.Exception => [ExcClass.Exception, ExcClass.BaseException]
  | ExcClass.ArithmeticError =>
      [ExcClass.ArithmeticError, ExcClass.Exception, ExcClass.BaseException]
  | ExcClass.ZeroDivisionError =>
      [ExcClass.ZeroDivisionError, ExcClass.ArithmeticError, ExcClass.Exception,
       ExcClass.BaseException]
  | ExcClass.TypeError => [ExcClass.TypeError, ExcClass.Exception, ExcClass.BaseException]
  | ExcClass.ValueError => [ExcClass.ValueError, ExcClass.Exception, ExcClass.BaseException]
  | ExcClass.CustomError => [ExcClass.CustomError, ExcClass.Exception, ExcClass.BaseException]
  | ExcClass.UnexpectedError => [ExcClass.UnexpectedError, ExcClass.BaseException]

/-- `isSub c sel` is Python `issubclass(c, sel)`: `sel` appears in the
ancestor chain of `c`. -/
def isSub (c sel : ExcClass) : Bool :=
  (mro c).any (fun x => decide (x = sel))

/-- A runtime exception object: its class, its message, and an identity
token `oid` distinguishing one object from another equal-looking one (Python
object identity).  Raising a failure and re-raising the same failure keep
the same `oid`; constructing a new exception uses a fresh one. -/
structure Exc where
  cls : ExcClass
  msg : String
  oid : Nat
deriving DecidableEq, Repr

/-- `excMatches e errors` is the test of the clause `except errors:` at
line 128 of the source, with `errors` the tuple passed to `expect_errors`:
the raised object is an instance of one of the listed classes (subclass
instances included).  An empty tuple matches nothing. -/
def excMatches (e : Exc) (errors : List ExcClass) : Bool :=
  errors.any (fun sel => isSub e.cls sel)

/-- The outcome of calling a Python callable: a returned value or a raised
exception object. -/
inductive Outcome (α : Type) where
  | ok : α → Outcome α
  | raised : Exc → Outcome α
deriving DecidableEq, Repr

/-- A conversion hook, as a Python callable of a declared arity.  The source
always invokes the hook as `on_unexpected_error(err, args, kwargs)`
(line 131), i.e. with three positional arguments; a caller may nonetheless
have supplied a callable declared with a single parameter, which Python then
rejects at call time. -/
inductive Hook (argsT kwargsT α : Type) where
  | ternary : (Exc → argsT → kwargsT → Outcome α) → Hook argsT kwargsT α
  | unary : (Exc → Outcome α) → Hook argsT kwargsT α

/-- The `TypeError` Python raises when a callable declared with one
parameter is called with three positional arguments. -/
def arityMismatchTypeError : Exc :=
  { cls := ExcClass.TypeError,
    msg := "takes 1 positional argument but 3 were given",
    oid := 1 }

/-- The call `on_unexpected_error(err, args, kwargs)` at line 131: a hook
declared with three parameters receives the captured failure and the
original positional and keyword arguments; a hook declared with a single
parameter raises `TypeError` (Python call-arity semantics), which then
propagates out of the except clause. -/
def callHook {argsT kwargsT α : Type} :
    Hook argsT kwargsT α → Exc → argsT → kwargsT → Outcome α
  | Hook.ternary f, err, args, kwargs => f err args kwargs
  | Hook.unary _, _, _, _ => Outcome.raised arityMismatchTypeError

/-- The exception object raised by the default hook `UnexpectedError.raise_`
(source lines 35-37): `raise cls("Unexpected error")`.  A fresh object with
the fixed message, carrying nothing of the captured failure. -/
def unexpectedErrorDefault : Exc :=
  { cls := ExcClass.UnexpectedError, msg := "Unexpected error", oid := 0 }

/-- `UnexpectedError.raise_` (source lines 35-37): the default value of
`on_unexpected_error`.  A classmethod with three parameters beyond `cls`,
ignoring all of them and raising `cls("Unexpected error")`. -/
def UnexpectedError.raise_ {argsT kwargsT α : Type} : Hook argsT kwargsT α :=
  Hook.ternary (fun _ _ _ => Outcome.raised unexpectedErrorDefault)

/-- The inner function `wrapped` of `expect_errors` (source lines 123-131):

    try:
        return func(*args, **kwargs)
    except errors:
        raise
    except Exception as err:
        return on_unexpected_error(err, args, kwargs)

A value returned by `func` is returned unchanged.  A raised failure is
dispatched against the except clauses in textual order: if it is an instance
of one of `errors` it is re-raised as the same object; otherwise, if it is
an instance of `Exception`, the hook is invoked and its outcome (returned
value, or raised failure propagating out of the except clause) is the
outcome of the call; otherwise no clause matches and the failure propagates
unchanged. -/
def wrapped {argsT kwargsT α : Type} (errors : List ExcClass)
    (on_unexpected_error : Hook argsT kwargsT α)
    (func : argsT → kwargsT → Outcome α) (args : argsT) (kwargs : kwargsT) :
    Outcome α :=
  match func args kwargs with
  | Outcome.ok v => Outcome.ok v
  | Outcome.raised err =>
      if excMatches err errors then Outcome.raised err
      else if isSub err.cls ExcClass.Exception then
        callHook on_unexpected_error err args kwargs
      else Outcome.raised err

/-- `expect_errors` (source lines 40-135): the decorator factory.  Applied
to `errors` and the hook it returns `wrapper`, which maps a callable `func`
to the guarded callable `wrapped`. -/
def expect_errors {argsT kwargsT α : Type} (errors : List ExcClass)
    (on_unexpected_error : Hook argsT kwargsT α)
    (func : argsT → kwargsT → Outcome α) :
    argsT → kwargsT → Outcome α :=
  wrapped errors on_unexpected_error func

/-- `wrapped`, instrumented with a count of hook invocations.  The callable
being wrapped itself reports a count, so that a wrapped callable can be
wrapped a second time and the total number of hook invocations observed. -/
def wrappedC {argsT kwargsT α : Type} (errors : List ExcClass)
    (on_unexpected_error : Hook argsT kwargsT α)
    (func : argsT → kwargsT → Outcome α × Nat) (args : argsT) (kwargs : kwargsT) :
    Outcome α × Nat :=
  match func args kwargs with
  | (Outcome.ok v, n) => (Outcome.ok v, n)
  | (Outcome.raised err, n) =>
      if excMatches err errors then (Outcome.raised err, n)
      else if isSub err.cls ExcClass.Exception then
        (callHook on_unexpected_error err args kwargs, n + 1)
      else (Outcome.raised err, n)

/-- A plain callable seen as an instrumented one invoking the hook zero
times. -/
def liftFunc {argsT kwargsT α : Type} (func : argsT → kwargsT → Outcome α) :
    argsT → kwargsT → Outcome α × Nat :=
  fun args kwargs => (func args kwargs, 0)

/-- The instrumented semantics projects onto the plain one. -/
theorem wrappedC_fst {argsT kwargsT α : Type} (errors : List ExcClass)
    (hook : Hook argsT kwargsT α) (func : argsT → kwargsT → Outcome α)
    (args : argsT) (kwargs : kwargsT) :
    (wrappedC errors hook (liftFunc func) args kwargs).1 =
      wrapped errors hook func args kwargs := by
  unfold wrappedC wrapped liftFunc
  cases func args kwargs with
  | ok v => rfl
  | raised err =>
      by_cases h1 : excMatches err errors
      · simp [h1]
      · by_cases h2 : isSub err.cls ExcClass.Exception <;> simp [h1, h2]

/-- The kind of each name in the public surface of the module. -/
inductive ExportKind where
  | exceptionClass
  | functionWrappingDecorator
  | scopeContextManager
deriving DecidableEq, Repr

/-- The public surface of the module, from `__all__` at line 9 of the
source: `__all__ = ["UnexpectedError", "expect_errors"]`, together with the
kind of each export as defined in the module body — `UnexpectedError` is an
exception class (lines 32-37) and `expect_errors` is a decorator factory
(lines 40-135).  The module defines no context manager and no enter/exit
scope form. -/
def moduleAll : List (String × ExportKind) :=
  [("UnexpectedError", ExportKind.exceptionClass),
   ("expect_errors", ExportKind.functionWrappingDecorator)]

/-! Sample failure objects used in concrete scenarios. -/

/-- A `ZeroDivisionError` instance, as raised by `4 / 0`. -/
def zde : Exc := { cls := ExcClass.ZeroDivisionError, msg := "division by zero", oid := 3 }

/-- A `TypeError` instance raised by an application. -/
def te : Exc := { cls := ExcClass.TypeError, msg := "unsupported operand", oid := 4 }

/-- A `ValueError` instance raised by an application. -/
def ve : Exc := { cls := ExcClass.ValueError, msg := "invalid literal", oid := 8 }

/-- An `UnexpectedError` instance raised by an application (for instance by
the default hook of a nested guard), carrying its own message. -/
def ueDetail : Exc := { cls := ExcClass.UnexpectedError, msg := "original detail", oid := 7 }

/-- A hook that raises a `ValueError` tagging the message of the failure it
received. -/
def hookV : Hook Unit Unit Nat :=
  Hook.ternary (fun e _ _ =>
    Outcome.raised { cls := ExcClass.ValueError, msg := "wrapped:" ++ e.msg, oid := 5 })

/-- A region raising a `TypeError` with message `"t"`. -/
def funcT : Unit → Unit → Outcome Nat :=
  fun _ _ => Outcome.raised { cls := ExcClass.TypeError, msg := "t", oid := 6 }

/-!
## Claims
-/

/-- Claim C1: for every guarded call that raises a failure whose kind
matches any selector in the expected set (a subclass instance included),
the guard re-raises the identical failure object unchanged — same object,
same kind, same message, no wrapping or conversion. -/
theorem c1_expected_reraised_unchanged {argsT kwargsT α : Type}
    (errors : List ExcClass) (hook : Hook argsT kwargsT α)
    (func : argsT → kwargsT → Outcome α) (args : argsT) (kwargs : kwargsT)
    (e : Exc) (hraise : func args kwargs = Outcome.raised e)
    (hmatch : excMatches e errors = true) :
    wrapped errors hook func args kwargs = Outcome.raised e := by
  unfold wrapped
  rw [hraise]
  simp [hmatch]

/-- Claim C1, witness: a `ZeroDivisionError` raised under the selector
`ArithmeticError` (a strict superclass) is re-raised as the same object. -/
theorem c1_expected_reraised_unchanged_witness :
    ((fun (_ : Unit) (_ : Unit) => (Outcome.raised zde : Outcome Nat)) () () =
      Outcome.raised zde) ∧
    excMatches zde [ExcClass.ArithmeticError] = true ∧
    wrapped [ExcClass.ArithmeticError] UnexpectedError.raise_
      (fun (_ : Unit) (_ : Unit) => (Outcome.raised zde : Outcome Nat)) () () =
      Outcome.raised zde :=
  ⟨rfl, by decide,
    c1_expected_reraised_unchanged [ExcClass.ArithmeticError] UnexpectedError.raise_
      (fun _ _ => Outcome.raised zde) () () zde rfl (by decide)⟩

/-- Claim C2, counterexample: with the default hook, a failure of class
`UnexpectedError` itself — which derives from `BaseException`, not from
`Exception` — is not in the expected set, yet the guard does not raise
`UnexpectedError("Unexpected error")`: the original object propagates raw,
its own message observable. -/
theorem c2_counterexample :
    excMatches ueDetail [ExcClass.ZeroDivisionError] = false ∧
    wrapped [ExcClass.ZeroDivisionError] UnexpectedError.raise_
      (fun (_ : Unit) (_ : Unit) => (Outcome.raised ueDetail : Outcome Nat)) () () =
      Outcome.raised ueDetail ∧
    ueDetail.msg ≠ "Unexpected error" := by
  refine ⟨by decide, rfl, by decide⟩

/-- Claim C2 (amended: restricted to failures deriving from `Exception`):
for every guarded call with the default hook that raises an
`Exception`-derived failure whose kind is not in the expected set, the
guard raises `UnexpectedError` with message `"Unexpected error"`; the
outcome is a fixed object independent of the captured failure, so nothing
of the original failure is observable. -/
theorem c2_default_hook_unexpected {argsT kwargsT α : Type}
    (errors : List ExcClass)
    (func : argsT → kwargsT → Outcome α) (args : argsT) (kwargs : kwargsT)
    (e : Exc) (hraise : func args kwargs = Outcome.raised e)
    (hexc : isSub e.cls ExcClass.Exception = true)
    (hmatch : excMatches e errors = false) :
    wrapped errors UnexpectedError.raise_ func args kwargs =
      Outcome.raised unexpectedErrorDefault ∧
    unexpectedErrorDefault.cls = ExcClass.UnexpectedError ∧
    unexpectedErrorDefault.msg = "Unexpected error" := by
  refine ⟨?_, rfl, rfl⟩
  unfold wrapped
  rw [hraise]
  simp [hmatch, hexc, callHook, UnexpectedError.raise_]

/-- Claim C2, witness: an unexpected `TypeError` turns into
`UnexpectedError("Unexpected error")`. -/
theorem c2_default_hook_unexpected_witness :
    ((fun (_ : Unit) (_ : Unit) => (Outcome.raised te : Outcome Nat)) () () =
      Outcome.raised te) ∧
    isSub te.cls ExcClass.Exception = true ∧
    excMatches te [ExcClass.ZeroDivisionError] = false ∧
    (wrapped [ExcClass.ZeroDivisionError] UnexpectedError.raise_
      (fun (_ : Unit) (_ : Unit) => (Outcome.raised te : Outcome Nat)) () () =
      Outcome.raised unexpectedErrorDefault ∧
    unexpectedErrorDefault.cls = ExcClass.UnexpectedError ∧
    unexpectedErrorDefault.msg = "Unexpected error") :=
  ⟨rfl, by decide, by decide,
    c2_default_hook_unexpected [ExcClass.ZeroDivisionError]
      (fun _ _ => Outcome.raised te) () () te rfl (by decide) (by decide)⟩

/-- Claim C3, counterexample: a custom hook returning `42`, and a guarded
call raising an `UnexpectedError`-class failure not in the expected set (an
unexpected failure in the sense of the specification).  The outcome is not
the value of the hook: the failure propagates raw, the hook never runs. -/
theorem c3_counterexample :
    excMatches ueDetail [ExcClass.ZeroDivisionError] = false ∧
    wrapped [ExcClass.ZeroDivisionError]
      (Hook.ternary (fun _ _ _ => Outcome.ok (42 : Nat)))
      (fun (_ : Unit) (_ : Unit) => Outcome.raised ueDetail) () () =
      Outcome.raised ueDetail ∧
    (Outcome.raised ueDetail : Outcome Nat) ≠ Outcome.ok 42 := by
  refine ⟨by decide, rfl, by decide⟩

/-- Claim C3 (amended: restricted to failures deriving from `Exception`):
with a custom hook, the guarded outcome on an unexpected
`Exception`-derived failure is exactly the outcome of the hook applied to
the captured failure and the call arguments — its returned value, or, the
hook raising, that raised failure. -/
theorem c3_custom_hook_outcome {argsT kwargsT α : Type}
    (errors : List ExcClass) (h : Exc → argsT → kwargsT → Outcome α)
    (func : argsT → kwargsT → Outcome α) (args : argsT) (kwargs : kwargsT)
    (e : Exc) (hraise : func args kwargs = Outcome.raised e)
    (hexc : isSub e.cls ExcClass.Exception = true)
    (hmatch : excMatches e errors = false) :
    wrapped errors (Hook.ternary h) func args kwargs = h e args kwargs := by
  unfold wrapped
  rw [hraise]
  simp [hmatch, hexc, callHook]

/-- Claim C3, witness: a hook returning `-1` as a plain value on an
unexpected `TypeError`. -/
theorem c3_custom_hook_outcome_witness :
    ((fun (_ : Unit) (_ : Unit) => (Outcome.raised te : Outcome Int)) () () =
      Outcome.raised te) ∧
    isSub te.cls ExcClass.Exception = true ∧
    excMatches te [ExcClass.ZeroDivisionError] = false ∧
    wrapped [ExcClass.ZeroDivisionError]
      (Hook.ternary (fun _ _ _ => Outcome.ok (-1 : Int)))
      (fun (_ : Unit) (_ : Unit) => (Outcome.raised te : Outcome Int)) () () =
      Outcome.ok (-1) :=
  ⟨rfl, by decide, by decide,
    c3_custom_hook_outcome [ExcClass.ZeroDivisionError]
      (fun _ _ _ => Outcome.ok (-1 : Int))
      (fun _ _ => Outcome.raised te) () () te rfl (by decide) (by decide)⟩

/-- Claim C4: when the wrapped function completes without raising, the
guarded call returns exactly its result, the same arguments passed through
unchanged. -/
theorem c4_success_passthrough {argsT kwargsT α : Type}
    (errors : List ExcClass) (hook : Hook argsT kwargsT α)
    (func : argsT → kwargsT → Outcome α) (args : argsT) (kwargs : kwargsT)
    (v : α) (hok : func args kwargs = Outcome.ok v) :
    wrapped errors hook func args kwargs = Outcome.ok v := by
  unfold wrapped
  rw [hok]

/-- Claim C4, witness: the guarded version of a function returning the
successor of its argument, called at `4`, returns `5`. -/
theorem c4_success_passthrough_witness :
    ((fun (x : Nat) (_ : Unit) => Outcome.ok (x + 1)) 4 () = Outcome.ok 5) ∧
    wrapped [ExcClass.ZeroDivisionError] UnexpectedError.raise_
      (fun (x : Nat) (_ : Unit) => Outcome.ok (x + 1)) 4 () = Outcome.ok 5 :=
  ⟨rfl,
    c4_success_passthrough [ExcClass.ZeroDivisionError] UnexpectedError.raise_
      (fun x _ => Outcome.ok (x + 1)) 4 () 5 rfl⟩

/-- Claim C5, counterexample: an `UnexpectedError`-class failure not in the
expected set propagates raw out of the guard, the hook never invoked — a
failure escaping unclassified. -/
theorem c5_counterexample :
    excMatches ueDetail [ExcClass.ZeroDivisionError] = false ∧
    wrappedC [ExcClass.ZeroDivisionError] UnexpectedError.raise_
      (liftFunc (fun (_ : Unit) (_ : Unit) => (Outcome.raised ueDetail : Outcome Nat)))
      () () = (Outcome.raised ueDetail, 0) := by
  refine ⟨by decide, rfl⟩

/-- Claim C5 (amended: restricted to failures deriving from `Exception`):
classification is total on `Exception`-derived failures — each one is
either in the expected set and re-raised unchanged with no hook
invocation, or handed to the hook exactly once with the hook outcome
becoming the guarded outcome.  Failures deriving only from `BaseException`
fall outside both except clauses and propagate raw. -/
theorem c5_classification_total {argsT kwargsT α : Type}
    (errors : List ExcClass) (hook : Hook argsT kwargsT α)
    (func : argsT → kwargsT → Outcome α) (args : argsT) (kwargs : kwargsT)
    (e : Exc) (hraise : func args kwargs = Outcome.raised e)
    (hexc : isSub e.cls ExcClass.Exception = true) :
    (excMatches e errors = true →
      wrappedC errors hook (liftFunc func) args kwargs = (Outcome.raised e, 0)) ∧
    (excMatches e errors = false →
      wrappedC errors hook (liftFunc func) args kwargs =
        (callHook hook e args kwargs, 1)) := by
  constructor
  · intro hmatch
    unfold wrappedC liftFunc
    rw [hraise]
    simp [hmatch]
  · intro hmatch
    unfold wrappedC liftFunc
    rw [hraise]
    simp [hmatch, hexc]

/-- Claim C5, witness: an unexpected `TypeError` is handed to the hook
exactly once. -/
theorem c5_classification_total_witness :
    ((fun (_ : Unit) (_ : Unit) => (Outcome.raised te : Outcome Nat)) () () =
      Outcome.raised te) ∧
    isSub te.cls ExcClass.Exception = true ∧
    excMatches te [ExcClass.ZeroDivisionError] = false ∧
    wrappedC [ExcClass.ZeroDivisionError] UnexpectedError.raise_
      (liftFunc (fun (_ : Unit) (_ : Unit) => (Outcome.raised te : Outcome Nat))) () () =
      (Outcome.raised unexpectedErrorDefault, 1) :=
  ⟨rfl, by decide, by decide,
    (c5_classification_total [ExcClass.ZeroDivisionError] UnexpectedError.raise_
      (fun _ _ => Outcome.raised te) () () te rfl (by decide)).2 (by decide)⟩

/-- Claim C6, counterexample: wrapping twice is not equivalent to wrapping
once.  With a hook raising a `ValueError` tagging the incoming message and
a region raising an unexpected `TypeError`, the single wrap raises
`ValueError("wrapped:t")` after one hook invocation, the double wrap
raises `ValueError("wrapped:wrapped:t")` after two: the inner conversion
is itself an unexpected `Exception` and is classified a second time. -/
theorem c6_counterexample :
    wrappedC [ExcClass.ZeroDivisionError] hookV (liftFunc funcT) () () =
      (Outcome.raised { cls := ExcClass.ValueError, msg := "wrapped:t", oid := 5 }, 1) ∧
    wrappedC [ExcClass.ZeroDivisionError] hookV
      (fun a k => wrappedC [ExcClass.ZeroDivisionError] hookV (liftFunc funcT) a k) () () =
      (Outcome.raised { cls := ExcClass.ValueError, msg := "wrapped:wrapped:t", oid := 5 }, 2) ∧
    (Outcome.raised { cls := ExcClass.ValueError, msg := "wrapped:wrapped:t", oid := 5 }, 2) ≠
      ((Outcome.raised { cls := ExcClass.ValueError, msg := "wrapped:t", oid := 5 } :
        Outcome Nat), 1) := by
  refine ⟨rfl, rfl, by decide⟩

/-- The hook never raises an `Exception`-derived failure outside the
expected set: every failure it raises is either expected or derives only
from `BaseException` (as with the default hook).  Under this condition a
second guard around a guarded callable has nothing left to convert. -/
def HookTame {argsT kwargsT α : Type} (errors : List ExcClass)
    (hook : Hook argsT kwargsT α) : Prop :=
  ∀ (e : Exc) (args : argsT) (kwargs : kwargsT) (r : Exc),
    callHook hook e args kwargs = Outcome.raised r →
    excMatches r errors = true ∨ isSub r.cls ExcClass.Exception = false

/-- Claim C6 (amended): wrapping the same callable twice with the same
guard and calling once is observationally equivalent — same outcome, same
number of hook invocations — to calling the singly-wrapped callable once,
provided every failure the hook raises is either expected or not
`Exception`-derived (the default hook qualifies).  Without that proviso a
raising hook can be invoked twice, as the counterexample shows. -/
theorem c6_idempotent_of_tame {argsT kwargsT α : Type}
    (errors : List ExcClass) (hook : Hook argsT kwargsT α)
    (func : argsT → kwargsT → Outcome α) (args : argsT) (kwargs : kwargsT)
    (htame : HookTame errors hook) :
    wrappedC errors hook
      (fun a k => wrappedC errors hook (liftFunc func) a k) args kwargs =
      wrappedC errors hook (liftFunc func) args kwargs := by
  cases hfk : func args kwargs with
  | ok v => simp [wrappedC, liftFunc, hfk]
  | raised e =>
      by_cases h1 : excMatches e errors
      · simp [wrappedC, liftFunc, hfk, h1]
      · by_cases h2 : isSub e.cls ExcClass.Exception
        · cases hch : callHook hook e args kwargs with
          | ok v => simp [wrappedC, liftFunc, hfk, h1, h2, hch]
          | raised r =>
              by_cases h3 : excMatches r errors
              · simp [wrappedC, liftFunc, hfk, h1, h2, hch, h3]
              · have h4 : isSub r.cls ExcClass.Exception = false := by
                  rcases htame e args kwargs r hch with h | h
                  · exact absurd h (by simpa using h3)
                  · exact h
                simp [wrappedC, liftFunc, hfk, h1, h2, hch, h3, h4]
        · simp [wrappedC, liftFunc, hfk, h1, h2]

/-- Claim C6, witness: with the default hook (whose raised
`UnexpectedError` derives only from `BaseException`) and a region raising
an unexpected `TypeError`, double wrapping equals single wrapping. -/
theorem c6_idempotent_of_tame_witness :
    HookTame [ExcClass.ZeroDivisionError] (UnexpectedError.raise_ : Hook Unit Unit Nat) ∧
    wrappedC [ExcClass.ZeroDivisionError] UnexpectedError.raise_
      (fun a k =>
        wrappedC [ExcClass.ZeroDivisionError] UnexpectedError.raise_ (liftFunc funcT) a k)
      () () =
      wrappedC [ExcClass.ZeroDivisionError] UnexpectedError.raise_ (liftFunc funcT) () () := by
  have htame :
      HookTame [ExcClass.ZeroDivisionError] (UnexpectedError.raise_ : Hook Unit Unit Nat) := by
    intro e args kwargs r hr
    right
    simp [callHook, UnexpectedError.raise_] at hr
    rw [← hr]
    decide
  exact ⟨htame,
    c6_idempotent_of_tame [ExcClass.ZeroDivisionError] UnexpectedError.raise_
      funcT () () htame⟩

/-- Claim C7, counterexample: with an empty expected set, an
`UnexpectedError`-class failure is still re-raised verbatim — same object —
with the hook never invoked, since the fallback clause catches only
`Exception`-derived failures. -/
theorem c7_counterexample :
    wrappedC ([] : List ExcClass) UnexpectedError.raise_
      (liftFunc (fun (_ : Unit) (_ : Unit) => (Outcome.raised ueDetail : Outcome Nat)))
      () () = (Outcome.raised ueDetail, 0) ∧
    ((Outcome.raised ueDetail : Outcome Nat), 0) ≠
      ((Outcome.raised unexpectedErrorDefault : Outcome Nat), 1) := by
  refine ⟨rfl, by decide⟩

/-- Claim C7 (amended: restricted to failures deriving from `Exception`):
with an empty expected set, every `Exception`-derived failure is converted
through the hook, exactly once; none is re-raised verbatim by the expected
clause (which matches nothing). -/
theorem c7_empty_expected_converts {argsT kwargsT α : Type}
    (hook : Hook argsT kwargsT α)
    (func : argsT → kwargsT → Outcome α) (args : argsT) (kwargs : kwargsT)
    (e : Exc) (hraise : func args kwargs = Outcome.raised e)
    (hexc : isSub e.cls ExcClass.Exception = true) :
    wrappedC ([] : List ExcClass) hook (liftFunc func) args kwargs =
      (callHook hook e args kwargs, 1) := by
  unfold wrappedC liftFunc
  rw [hraise]
  simp [excMatches, hexc]

/-- Claim C7, witness: under an empty expected set, even a
`ZeroDivisionError` goes through the hook. -/
theorem c7_empty_expected_converts_witness :
    ((fun (_ : Unit) (_ : Unit) => (Outcome.raised zde : Outcome Nat)) () () =
      Outcome.raised zde) ∧
    isSub zde.cls ExcClass.Exception = true ∧
    wrappedC ([] : List ExcClass) UnexpectedError.raise_
      (liftFunc (fun (_ : Unit) (_ : Unit) => (Outcome.raised zde : Outcome Nat))) () () =
      (Outcome.raised unexpectedErrorDefault, 1) :=
  ⟨rfl, by decide,
    c7_empty_expected_converts UnexpectedError.raise_
      (fun _ _ => Outcome.raised zde) () () zde rfl (by decide)⟩

/-- Claim C8, counterexample: a hook declared with a single parameter is
not supported.  The guard invokes the hook with three positional arguments
(`err, args, kwargs`, line 131 of the source), so a unary hook returning
`42` does not produce `42`: the call raises the arity `TypeError`, which
propagates out of the except clause. -/
theorem c8_counterexample :
    wrapped [ExcClass.ZeroDivisionError]
      (Hook.unary (fun _ => Outcome.ok (42 : Nat)))
      (fun (_ : Unit) (_ : Unit) => Outcome.raised ve) () () =
      Outcome.raised arityMismatchTypeError ∧
    (Outcome.raised arityMismatchTypeError : Outcome Nat) ≠ Outcome.ok 42 := by
  refine ⟨rfl, by decide⟩

/-- Claim C8 (amended): only the 3-argument hook is supported.  The guard
always invokes the hook with the captured failure and the original
positional and keyword arguments; a hook declared with a single parameter
makes every conversion raise the arity `TypeError` instead of the hook
outcome.  No arity selection happens at construction time. -/
theorem c8_hook_ternary_only {argsT kwargsT α : Type}
    (errors : List ExcClass) (f : Exc → argsT → kwargsT → Outcome α)
    (u : Exc → Outcome α)
    (func : argsT → kwargsT → Outcome α) (args : argsT) (kwargs : kwargsT)
    (e : Exc) (hraise : func args kwargs = Outcome.raised e)
    (hexc : isSub e.cls ExcClass.Exception = true)
    (hmatch : excMatches e errors = false) :
    wrapped errors (Hook.ternary f) func args kwargs = f e args kwargs ∧
    wrapped errors (Hook.unary u) func args kwargs =
      Outcome.raised arityMismatchTypeError := by
  constructor
  · unfold wrapped
    rw [hraise]
    simp [hmatch, hexc, callHook]
  · unfold wrapped
    rw [hraise]
    simp [hmatch, hexc, callHook]

/-- Claim C8, witness: on an unexpected `ValueError`, a ternary hook sees
the failure and both argument collections, a unary hook produces the arity
`TypeError`. -/
theorem c8_hook_ternary_only_witness :
    ((fun (_ : Unit) (_ : Unit) => (Outcome.raised ve : Outcome Nat)) () () =
      Outcome.raised ve) ∧
    isSub ve.cls ExcClass.Exception = true ∧
    excMatches ve [ExcClass.ZeroDivisionError] = false ∧
    (wrapped [ExcClass.ZeroDivisionError]
      (Hook.ternary (fun err _ _ => Outcome.ok err.oid))
      (fun (_ : Unit) (_ : Unit) => (Outcome.raised ve : Outcome Nat)) () () =
      Outcome.ok ve.oid ∧
    wrapped [ExcClass.ZeroDivisionError]
      (Hook.unary (fun err => Outcome.ok err.oid))
      (fun (_ : Unit) (_ : Unit) => (Outcome.raised ve : Outcome Nat)) () () =
      Outcome.raised arityMismatchTypeError) :=
  ⟨rfl, by decide, by decide,
    c8_hook_ternary_only [ExcClass.ZeroDivisionError]
      (fun err _ _ => Outcome.ok err.oid) (fun err => Outcome.ok err.oid)
      (fun _ _ => Outcome.raised ve) () () ve rfl (by decide) (by decide)⟩

/-- Claim C9, counterexample: the public surface of the module holds no
scope form.  Its only activation form is the function-wrapping decorator
`expect_errors`; no export is a context manager delimited by explicit
enter/exit. -/
theorem c9_counterexample :
    moduleAll.filter (fun p => decide (p.2 = ExportKind.scopeContextManager)) = [] ∧
    moduleAll.filter (fun p => decide (p.2 = ExportKind.functionWrappingDecorator)) =
      [("expect_errors", ExportKind.functionWrappingDecorator)] := by
  decide

/-- Claim C9 (amended): the guard provides a single activation form, the
function-wrapping decorator `expect_errors`; no scope form exists.  The one
form delegates to the classification routine `wrapped`: applying the
decorator to a callable and calling it is exactly running `wrapped` on
it. -/
theorem c9_single_activation_form :
    moduleAll.filter (fun p => decide (p.2 ≠ ExportKind.exceptionClass)) =
      [("expect_errors", ExportKind.functionWrappingDecorator)] ∧
    ∀ (argsT kwargsT α : Type) (errors : List ExcClass)
      (hook : Hook argsT kwargsT α) (func : argsT → kwargsT → Outcome α)
      (args : argsT) (kwargs : kwargsT),
      expect_errors errors hook func args kwargs =
        wrapped errors hook func args kwargs :=
  ⟨by decide, fun _ _ _ _ _ _ _ _ => rfl⟩

/-- Claim C10: `UnexpectedError` derives from `BaseException`, not
`Exception`, so an `UnexpectedError` raised inside a guarded region — for
instance by the default hook of a nested guard — is not caught by the
fallback `except Exception` clause: unless its class matches a selector in
the expected set, it propagates raw, the hook never invoked. -/
theorem c10_unexpected_error_is_base {argsT kwargsT α : Type}
    (errors : List ExcClass) (hook : Hook argsT kwargsT α)
    (func : argsT → kwargsT → Outcome α) (args : argsT) (kwargs : kwargsT)
    (e : Exc) (hraise : func args kwargs = Outcome.raised e)
    (hcls : e.cls = ExcClass.UnexpectedError)
    (hmatch : excMatches e errors = false) :
    mro ExcClass.UnexpectedError = [ExcClass.UnexpectedError, ExcClass.BaseException] ∧
    isSub ExcClass.UnexpectedError ExcClass.Exception = false ∧
    wrappedC errors hook (liftFunc func) args kwargs = (Outcome.raised e, 0) := by
  refine ⟨rfl, by decide, ?_⟩
  unfold wrappedC liftFunc
  rw [hraise]
  simp [hmatch, hcls]
  decide

/-- Claim C10, witness: an `UnexpectedError` carrying its own message,
raised in a region guarded with `[ZeroDivisionError]` and the default
hook, comes out raw and unconverted. -/
theorem c10_unexpected_error_is_base_witness :
    ((fun (_ : Unit) (_ : Unit) => (Outcome.raised ueDetail : Outcome Nat)) () () =
      Outcome.raised ueDetail) ∧
    ueDetail.cls = ExcClass.UnexpectedError ∧
    excMatches ueDetail [ExcClass.ZeroDivisionError] = false ∧
    (mro ExcClass.UnexpectedError = [ExcClass.UnexpectedError, ExcClass.BaseException] ∧
    isSub ExcClass.UnexpectedError ExcClass.Exception = false ∧
    wrappedC [ExcClass.ZeroDivisionError] UnexpectedError.raise_
      (liftFunc (fun (_ : Unit) (_ : Unit) => (Outcome.raised ueDetail : Outcome Nat)))
      () () = (Outcome.raised ueDetail, 0)) :=
  ⟨rfl, rfl, by decide,
    c10_unexpected_error_is_base [ExcClass.ZeroDivisionError] UnexpectedError.raise_
      (fun _ _ => Outcome.raised ueDetail) () () ueDetail rfl rfl (by decide)⟩

end Errorhelpers
